import Mathlib

/-!
Verification development for the mental-health treatment predictor backend.

The embedding models the feature-encoding pipeline shared between the
fitting module (backend/ml/train_model.py, prepare_features) and the
serving module (backend/app/predict.py, PredictionService), together with
the explanation logic (predict, explainer).

Modelling conventions:
* numbers are exact rationals;
* a pandas single-row DataFrame is an ordered association list from column
  names to cell values; assignment to a fresh column appends it at the end,
  exactly as pandas does;
* column names are structured (a raw column, or a dummy column made from a
  feature and a category); the source renders a dummy column as the string
  feat + underscore + category, and on the names occurring in this system
  that rendering is injective, so the structured form is faithful;
* code that raises (a missing artifact file, list.index on an absent
  feature, a scaler applied to a vector of the wrong width) is modelled
  with Option, none standing for the raised exception.
-/

/-- A cell value of the single-row frame: a string, a number, or missing
(NaN); pd.cut out of range and an unmapped company size produce NaN. -/
inductive Val where
  | str : String → Val
  | num : ℚ → Val
  | na : Val
deriving DecidableEq

/-- A column name: either a raw column or a one-hot dummy column made by
get_dummies from a feature name and a category label. -/
inductive ColName where
  | raw : String → ColName
  | dummy : String → String → ColName
deriving DecidableEq

abbrev Row := List (ColName × Val)

/-- Association-list read, first match wins (pandas columns are unique). -/
def aget {α β : Type} [DecidableEq α] : List (α × β) → α → Option β
  | [], _ => none
  | p :: es, c => if p.1 = c then some p.2 else aget es c

/-- Column assignment: replace in place when present, append when new
(pandas df[col] = value). -/
def aset {α β : Type} [DecidableEq α] : List (α × β) → α → β → List (α × β)
  | [], c, v => [(c, v)]
  | p :: es, c, v => if p.1 = c then (c, v) :: es else p :: aset es c v

/-- Column removal (pandas df.drop(col, axis=1)). -/
def adrop {α β : Type} [DecidableEq α] : List (α × β) → α → List (α × β)
  | [], _ => []
  | p :: es, c => if p.1 = c then adrop es c else p :: adrop es c

/-- The serving request record: the fields of PredictionRequest
(backend/app/models.py), all present after model_dump(). -/
structure InputRecord where
  Age : Int
  Gender : String
  Country : String
  self_employed : String
  family_history : String
  work_interfere : String
  no_employees : String
  remote_work : String
  tech_company : String
  benefits : String
  care_options : String
  wellness_program : String
  seek_help : String
  anonymity : String
  leave : String
  mental_health_consequence : String
  phys_health_consequence : String
  coworkers : String
  supervisor : String
  mental_health_interview : String
  phys_health_interview : String
  mental_vs_physical : String
  obs_consequence : String
deriving DecidableEq

/-- The loaded artifact contents the serving pipeline consults: ordered
feature names, scaler parameters, the saved ordinal label encoders
(feature name to its classes), and the explainer feature-importance
list. -/
structure Artifacts where
  featureNames : List ColName
  scalerMean : List ℚ
  scalerStd : List ℚ
  labelEncoders : List (String × List String)
  featureImportance : List (ColName × ℚ)

/-- Ordinal features with their declared orders, as the identical literal
dictionaries in predict.py (lines 74-79) and train_model.py (lines 60-65). -/
def ordinalFeatures : List (String × List String) :=
  [("work_interfere", ["Never", "Rarely", "Sometimes", "Often"]),
   ("leave", ["Very easy", "Somewhat easy", "Don\x27t know", "Somewhat difficult", "Very difficult"]),
   ("no_employees", ["1-5", "6-25", "26-100", "100-500", "500-1000", "More than 1000"]),
   ("age_group", ["18-25", "26-35", "36-45", "46+"])]

/-- Binary Yes/No features (identical literal lists in both modules). -/
def binaryFeatures : List String :=
  ["self_employed", "family_history", "remote_work", "tech_company",
   "seek_help", "anonymity", "mental_health_consequence",
   "phys_health_consequence", "obs_consequence"]

/-- Three-way features, one-hot encoded without dropping a baseline. -/
def threeWayFeatures : List String := ["benefits", "care_options", "wellness_program"]

/-- Nominal features, one-hot encoded with drop-first. -/
def nominalFeatures : List String :=
  ["Gender", "Country", "coworkers", "supervisor",
   "mental_health_interview", "phys_health_interview",
   "mental_vs_physical", "company_size_category"]

/-- The company-size lookup (size_mapping in predict.py lines 63-70 and
data_processing.py lines 219-226). -/
def sizeMapping : List (String × String) :=
  [("1-5", "Small"), ("6-25", "Small"), ("26-100", "Medium"),
   ("100-500", "Large"), ("500-1000", "Large"), ("More than 1000", "Very Large")]

/-- Series.map over the size lookup; values outside the mapping become NaN. -/
def mapSize (v : Val) : Val :=
  match v with
  | .str s =>
    match aget sizeMapping s with
    | some t => Val.str t
    | none => Val.na
  | _ => Val.na

/-- pd.cut of Age with bins [0, 25, 35, 45, 100] and the four labels;
intervals are right-closed and values outside (0, 100] become NaN. -/
def ageGroupVal (a : Int) : Val :=
  if a ≤ 0 then Val.na
  else if a ≤ 25 then Val.str "18-25"
  else if a ≤ 35 then Val.str "26-35"
  else if a ≤ 45 then Val.str "36-45"
  else if a ≤ 100 then Val.str "46+"
  else Val.na

/-- Python membership test: val in order (NaN and numbers are never in a
list of category strings). -/
def valIn (v : Val) (l : List String) : Bool :=
  match v with
  | .str s => decide (s ∈ l)
  | _ => false

/-- Position of a label among the encoder classes; LabelEncoder.transform
returns exactly this position (every call site guards membership first, so
the zero returned on the impossible missing case is never reached). -/
def colIdx : List String → String → ℕ
  | [], _ => 0
  | c :: cs, s => if c = s then 0 else colIdx cs s + 1

/-- Numeric result of le.transform([val]) for a string cell. -/
def colIdxQ (classes : List String) (v : Val) : ℚ :=
  match v with
  | .str s => (colIdx classes s : ℚ)
  | _ => 0

/-- One iteration of the serve-time ordinal loop (predict.py lines 92-102):
skip when the column or the saved encoder is absent; encode a known value
through the saved encoder; replace an unknown value by len(order) // 2. -/
def applyOrdinal (encs : List (String × List String)) (df : Row)
    (feat : String) (order : List String) : Row :=
  match aget df (ColName.raw feat) with
  | none => df
  | some v =>
    match aget encs feat with
    | none => df
    | some classes =>
      if valIn v order then aset df (ColName.raw feat) (Val.num (colIdxQ classes v))
      else aset df (ColName.raw feat) (Val.num ((order.length / 2 : ℕ) : ℚ))

/-- One iteration of the binary loop (both modules): 1 iff the cell equals
the string Yes. -/
def applyBinary (df : Row) (feat : String) : Row :=
  match aget df (ColName.raw feat) with
  | none => df
  | some v => aset df (ColName.raw feat) (Val.num (if v = Val.str "Yes" then 1 else 0))

/-- pd.get_dummies on a SINGLE-ROW series: one indicator column per
category observed in that series, hence exactly one column for a string
cell and none for NaN; drop-first then removes the first (only) column.
Numeric cells never reach get_dummies in this pipeline. -/
def singleDummies (feat : String) (v : Val) (dropFirst : Bool) : Row :=
  match v with
  | .str s => if dropFirst then [] else [(ColName.dummy feat s, Val.num 1)]
  | _ => []

/-- One iteration of the serve-time three-way or nominal loop
(predict.py lines 110-125): concat the dummies at the end, then drop the
original column. -/
def applyDummies (dropFirst : Bool) (df : Row) (feat : String) : Row :=
  match aget df (ColName.raw feat) with
  | none => df
  | some v => adrop (df ++ singleDummies feat v dropFirst) (ColName.raw feat)

/-- pd.DataFrame([input_data]): the request fields in declaration order. -/
def initialDF (r : InputRecord) : Row :=
  [(ColName.raw "Age", Val.num (r.Age : ℚ)),
   (ColName.raw "Gender", Val.str r.Gender),
   (ColName.raw "Country", Val.str r.Country),
   (ColName.raw "self_employed", Val.str r.self_employed),
   (ColName.raw "family_history", Val.str r.family_history),
   (ColName.raw "work_interfere", Val.str r.work_interfere),
   (ColName.raw "no_employees", Val.str r.no_employees),
   (ColName.raw "remote_work", Val.str r.remote_work),
   (ColName.raw "tech_company", Val.str r.tech_company),
   (ColName.raw "benefits", Val.str r.benefits),
   (ColName.raw "care_options", Val.str r.care_options),
   (ColName.raw "wellness_program", Val.str r.wellness_program),
   (ColName.raw "seek_help", Val.str r.seek_help),
   (ColName.raw "anonymity", Val.str r.anonymity),
   (ColName.raw "leave", Val.str r.leave),
   (ColName.raw "mental_health_consequence", Val.str r.mental_health_consequence),
   (ColName.raw "phys_health_consequence", Val.str r.phys_health_consequence),
   (ColName.raw "coworkers", Val.str r.coworkers),
   (ColName.raw "supervisor", Val.str r.supervisor),
   (ColName.raw "mental_health_interview", Val.str r.mental_health_interview),
   (ColName.raw "phys_health_interview", Val.str r.phys_health_interview),
   (ColName.raw "mental_vs_physical", Val.str r.mental_vs_physical),
   (ColName.raw "obs_consequence", Val.str r.obs_consequence)]

/-- The derived features added at serve time (predict.py lines 59-71). -/
def derivedDF (r : InputRecord) : Row :=
  aset (aset (initialDF r) (ColName.raw "age_group") (ageGroupVal r.Age))
    (ColName.raw "company_size_category") (mapSize (Val.str r.no_employees))

def ordinalPass (encs : List (String × List String)) (df : Row) : Row :=
  ordinalFeatures.foldl (fun d p => applyOrdinal encs d p.1 p.2) df

def binaryPass (df : Row) : Row :=
  binaryFeatures.foldl applyBinary df

def threeWayPass (df : Row) : Row :=
  threeWayFeatures.foldl (applyDummies false) df

def nominalPass (df : Row) : Row :=
  nominalFeatures.foldl (applyDummies true) df

/-- The frame right after the four encoding loops, before the
missing-feature fill (predict.py lines 56-125). -/
def preprocessCore (m : Artifacts) (r : InputRecord) : Row :=
  nominalPass (threeWayPass (binaryPass (ordinalPass m.labelEncoders (derivedDF r))))

/-- The fill loop (predict.py lines 127-130): every expected feature
missing from the frame is appended with value 0. -/
def fillMissing : Row → List ColName → Row
  | df, [] => df
  | df, f :: fs =>
    fillMissing (match aget df f with
      | some _ => df
      | none => df ++ [(f, Val.num 0)]) fs

def fullDF (m : Artifacts) (r : InputRecord) : Row :=
  fillMissing (preprocessCore m r) m.featureNames

/-- The cell selected for one expected feature; after the fill loop the
column is always present, so the default is never reached. -/
def valueOfColumn (m : Artifacts) (r : InputRecord) (f : ColName) : Val :=
  (aget (fullDF m r) f).getD (Val.num 0)

/-- X = df[feature_names].values: the pre-scaling encoded vector, one cell
per expected feature, in artifact order (predict.py line 133). -/
def encodedVec (m : Artifacts) (r : InputRecord) : List Val :=
  m.featureNames.map (valueOfColumn m r)

/-- Numeric view of a cell, as numpy coerces the selected values; with
fit-derived artifacts every selected cell is already numeric. -/
def Val.toQ : Val → ℚ
  | .num q => q
  | _ => 0

def encodedQ (m : Artifacts) (r : InputRecord) : List ℚ :=
  (encodedVec m r).map Val.toQ

/-- StandardScaler on one cell: (x - mean) / std, where a zero training
standard deviation is replaced by 1 (sklearn handle-zeros guard), leaving
the centred value unscaled. -/
def scaleVal (mu sg x : ℚ) : ℚ :=
  if sg = 0 then x - mu else (x - mu) / sg

def scaleList : List ℚ → List ℚ → List ℚ → List ℚ
  | mu :: ms, sg :: ss, x :: xs => scaleVal mu sg x :: scaleList ms ss xs
  | _, _, _ => []

/-- scaler.transform of one vector; sklearn raises when the vector width
disagrees with the fitted parameter count, modelled as none. -/
def scaleVec (ms ss xs : List ℚ) : Option (List ℚ) :=
  if ms.length = xs.length ∧ ss.length = xs.length then some (scaleList ms ss xs) else none

/-- PredictionService.preprocess_input: encode, align, scale
(predict.py lines 45-138); the returned vector is the SCALED one. -/
def preprocessInput (m : Artifacts) (r : InputRecord) : Option (List ℚ) :=
  scaleVec m.scalerMean m.scalerStd (encodedQ m r)

/-- One entry of the contributions list built in predict
(predict.py lines 170-182). -/
structure Contribution where
  feature : ColName
  impact : ℚ
  direction : String
deriving DecidableEq

/-- list.index over the feature-name list; Python raises ValueError when
the feature is absent, modelled as none. -/
def idxOf : List ColName → ColName → Option ℕ
  | [], _ => none
  | c :: cs, f => if c = f then some 0 else (idxOf cs f).map (· + 1)

/-- The contributions loop (predict.py lines 170-182): for each explainer
entry, look the feature up in feature_names, take the corresponding value
of the vector handed to the loop, and multiply by the importance. -/
def buildContribs (names : List ColName) (xs : List ℚ) :
    List (ColName × ℚ) → Option (List Contribution)
  | [] => some []
  | fi :: rest =>
    match idxOf names fi.1 with
    | none => none
    | some i =>
      match buildContribs names xs rest with
      | none => none
      | some cs =>
        some ({ feature := fi.1,
                impact := xs.getD i 0 * fi.2,
                direction := if 0 < xs.getD i 0 * fi.2 then "positive" else "negative" } :: cs)

/-- Sort key order of Python sorted(key=abs(impact), reverse=True):
a goes before b iff the absolute impact of b is at most that of a. -/
def relAbs (a b : Contribution) : Prop := |b.impact| ≤ |a.impact|

instance : DecidableRel relAbs :=
  fun a b => inferInstanceAs (Decidable (|b.impact| ≤ |a.impact|))

instance : IsTotal Contribution relAbs :=
  ⟨fun a b => le_total (|b.impact|) (|a.impact|)⟩

instance : IsTrans Contribution relAbs :=
  ⟨fun _ _ _ h1 h2 => le_trans h2 h1⟩

/-- The stable descending sort by absolute impact (predict.py line 185). -/
def sortContribs (cs : List Contribution) : List Contribution :=
  List.insertionSort relAbs cs

/-- contributions[:5] after the sort (predict.py line 195). -/
def topFactors (cs : List Contribution) : List Contribution :=
  (sortContribs cs).take 5

/-- The opaque fitted classifier: predict_proba and predict. -/
structure Scorer where
  proba : List ℚ → ℚ × ℚ
  classOf : List ℚ → ℕ

/-- The confidence bucketing of predict.py lines 158-164. -/
def confOf (p : ℚ) : String :=
  if p > 3 / 4 then "High" else if p > 3 / 5 then "Medium" else "Low"

/-- The prediction response assembled by PredictionService.predict. -/
structure PredictionResult where
  prediction : String
  probNo : ℚ
  probYes : ℚ
  confidence : String
  topFive : List Contribution
deriving DecidableEq

/-- Contributions of one served record: the loop runs on the SCALED vector
returned by preprocess_input (predict.py lines 151, 167). -/
def serveContributions (m : Artifacts) (r : InputRecord) : Option (List Contribution) :=
  match preprocessInput m r with
  | none => none
  | some xs => buildContribs m.featureNames xs m.featureImportance

/-- PredictionService.predict (predict.py lines 140-198). -/
def predictService (m : Artifacts) (sc : Scorer) (r : InputRecord) : Option PredictionResult :=
  match preprocessInput m r with
  | none => none
  | some xs =>
    match buildContribs m.featureNames xs m.featureImportance with
    | none => none
    | some cs =>
      some { prediction := if sc.classOf xs = 1 then "Yes" else "No",
             probNo := (sc.proba xs).1,
             probYes := (sc.proba xs).2,
             confidence := confOf (max (sc.proba xs).1 (sc.proba xs).2),
             topFive := topFactors cs }

/-- The five persisted blobs; none stands for a missing or unreadable
file, on which joblib.load raises. -/
structure Bundle where
  model : Option Scorer
  scaler : Option (List ℚ × List ℚ)
  featureNames : Option (List ColName)
  labelEncoders : Option (List (String × List String))
  explainerData : Option (List (ColName × ℚ))

structure Loaded where
  model : Scorer
  scaler : List ℚ × List ℚ
  featureNames : List ColName
  labelEncoders : List (String × List String)
  explainerData : List (ColName × ℚ)

/-- PredictionService._load_model (predict.py lines 33-43): five joblib
loads and nothing else; no cross-artifact consistency check of any kind. -/
def loadModel (b : Bundle) : Option Loaded :=
  match b.model, b.scaler, b.featureNames, b.labelEncoders, b.explainerData with
  | some m, some s, some f, some l, some e => some ⟨m, s, f, l, e⟩
  | _, _, _, _, _ => none

/-- The columns prepare_features excludes (train_model.py line 54). -/
def excludedCols : List String := ["Timestamp", "treatment", "comments", "state"]

def keepCol : ColName → Bool
  | .raw s => !(excludedCols.contains s)
  | .dummy _ _ => true

def filterKeys {α β : Type} (p : α → Bool) : List (α × β) → List (α × β)
  | [] => []
  | e :: es => if p e.1 then e :: filterKeys p es else filterKeys p es

/-- Corpus-level facts frozen by the fitting run: per three-way feature the
category column order get_dummies produced, per nominal feature the
category column order after rare-category grouping (drop-first removes the
head) and the retained top categories. -/
structure FitInfo where
  threeCats : List (String × List String)
  nomCats : List (String × List String)
  topCats : List (String × List String)

/-- Corpus-wide get_dummies restricted to one row: one indicator column per
corpus category, firing on the matching one. -/
def dummiesOver (cats : List String) (feat : String) (v : Val) : Row :=
  cats.map (fun c => (ColName.dummy feat c, Val.num (if v = Val.str c then 1 else 0)))

/-- Fit-time ordinal handling (train_model.py lines 84-91): the source
first maps a value outside the order to the middle label order[len // 2]
and then label-encodes with classes set to the order, which composes to
the middle index; a known value encodes to its position. -/
def applyOrdinalFit (df : Row) (feat : String) (order : List String) : Row :=
  match aget df (ColName.raw feat) with
  | none => df
  | some v =>
    if valIn v order then aset df (ColName.raw feat) (Val.num (colIdxQ order v))
    else aset df (ColName.raw feat) (Val.num ((order.length / 2 : ℕ) : ℚ))

/-- Fit-time three-way one-hot (train_model.py lines 99-103). -/
def applyThreeFit (fi : FitInfo) (df : Row) (feat : String) : Row :=
  match aget df (ColName.raw feat) with
  | none => df
  | some v => adrop (df ++ dummiesOver ((aget fi.threeCats feat).getD []) feat v) (ColName.raw feat)

/-- Fit-time nominal one-hot (train_model.py lines 106-114): group values
outside the retained top categories as Other, then one-hot over the corpus
categories with the first column dropped. -/
def applyNomFit (fi : FitInfo) (df : Row) (feat : String) : Row :=
  match aget df (ColName.raw feat) with
  | none => df
  | some v =>
    adrop (df ++ dummiesOver (((aget fi.nomCats feat).getD []).drop 1) feat
      (if valIn v ((aget fi.topCats feat).getD []) then v else Val.str "Other")) (ColName.raw feat)

/-- ModelTrainer.prepare_features (train_model.py lines 49-121) acting on
one corpus row; the Age step (to_numeric + median fill) is the identity on
the already-numeric Age column of the processed corpus. -/
def prepareFeaturesRow (fi : FitInfo) (row : Row) : Row :=
  nominalFeatures.foldl (applyNomFit fi)
    (threeWayFeatures.foldl (applyThreeFit fi)
      (binaryFeatures.foldl applyBinary
        (ordinalFeatures.foldl (fun d p => applyOrdinalFit d p.1 p.2)
          (filterKeys keepCol row))))

/-- X.columns.tolist() after prepare_features: the authoritative ordered
feature-name list saved into the artifacts (train_model.py line 121). -/
def fitFeatureNames (fi : FitInfo) (row : Row) : List ColName :=
  (prepareFeaturesRow fi row).map Prod.fst

/-- The training-matrix row prepare_features builds for one record. -/
def fitVector (fi : FitInfo) (row : Row) : List Val :=
  (prepareFeaturesRow fi row).map Prod.snd

/-- The serve-time value of a nominal field of the record (the derived
company-size category reads the raw employee-count field). -/
def nominalValue (r : InputRecord) (f : String) : Val :=
  if f = "Gender" then Val.str r.Gender
  else if f = "Country" then Val.str r.Country
  else if f = "coworkers" then Val.str r.coworkers
  else if f = "supervisor" then Val.str r.supervisor
  else if f = "mental_health_interview" then Val.str r.mental_health_interview
  else if f = "phys_health_interview" then Val.str r.phys_health_interview
  else if f = "mental_vs_physical" then Val.str r.mental_vs_physical
  else if f = "company_size_category" then mapSize (Val.str r.no_employees)
  else Val.na

/-- The categories of a nominal field retained with a dedicated indicator
column in the artifacts. -/
def retainedCats (m : Artifacts) (f : String) : List String :=
  m.featureNames.filterMap (fun c =>
    match c with
    | .dummy g s => if g = f then some s else none
    | .raw _ => none)

/-- The four saved label encoders: one per ordinal feature, classes equal
to the declared order (train_model.py lines 84-91). -/
def theEncoders : List (String × List String) := ordinalFeatures

/-- A concrete well-formed request (the concrete scenario of the spec). -/
def exRecord : InputRecord :=
  { Age := 30, Gender := "Male", Country := "India",
    self_employed := "No", family_history := "Yes",
    work_interfere := "Sometimes", no_employees := "26-100",
    remote_work := "No", tech_company := "Yes",
    benefits := "Yes", care_options := "Yes", wellness_program := "No",
    seek_help := "Yes", anonymity := "Yes", leave := "Somewhat easy",
    mental_health_consequence := "No", phys_health_consequence := "No",
    coworkers := "Some of them", supervisor := "Yes",
    mental_health_interview := "No", phys_health_interview := "Maybe",
    mental_vs_physical := "Yes", obs_consequence := "No" }

/-- The same request with an age of 40 (used where a value away from the
scaler mean is needed). -/
def exRecord40 : InputRecord := { exRecord with Age := 40 }

/-- The same request with an unknown work-interference level. -/
def exRecordWI : InputRecord := { exRecord with work_interfere := "Unknown" }

/-- The same request with a fictitious country. -/
def exRecordCountry : InputRecord := { exRecord with Country := "Wakanda" }

/-- A one-feature artifact set: feature Age with mean 30, std 2 and global
importance 1. -/
def exmA : Artifacts :=
  { featureNames := [ColName.raw "Age"],
    scalerMean := [30], scalerStd := [2],
    labelEncoders := theEncoders,
    featureImportance := [(ColName.raw "Age", 1)] }

/-- An artifact set whose scaler carries two parameters against one
feature name (the internally inconsistent bundle of the spec scenario). -/
def exmBad : Artifacts :=
  { featureNames := [ColName.raw "Age"],
    scalerMean := [0, 0], scalerStd := [1, 1],
    labelEncoders := theEncoders,
    featureImportance := [(ColName.raw "Age", 1)] }

/-- A fixed opaque scorer for concrete evaluations. -/
def exScorer : Scorer := { proba := fun _ => (1 / 5, 4 / 5), classOf := fun _ => 1 }

/-- Corpus-derived category structure of a small fitting run: three-way
categories, nominal get_dummies column orders (lexicographic, as pandas
sorts them) and retained top categories per nominal feature. -/
def exFit : FitInfo :=
  { threeCats :=
      [("benefits", ["Don\x27t know", "No", "Yes"]),
       ("care_options", ["Don\x27t know", "No", "Yes"]),
       ("wellness_program", ["Don\x27t know", "No", "Yes"])],
    nomCats :=
      [("Gender", ["Female", "Male", "Other"]),
       ("Country", ["India", "Other", "United States"]),
       ("coworkers", ["No", "Some of them", "Yes"]),
       ("supervisor", ["No", "Some of them", "Yes"]),
       ("mental_health_interview", ["Maybe", "No", "Yes"]),
       ("phys_health_interview", ["Maybe", "No", "Yes"]),
       ("mental_vs_physical", ["Don\x27t know", "No", "Yes"]),
       ("company_size_category", ["Large", "Medium", "Small", "Very Large"])],
    topCats :=
      [("Gender", ["Male", "Female"]),
       ("Country", ["United States", "India"]),
       ("coworkers", ["Yes", "No", "Some of them"]),
       ("supervisor", ["Yes", "No", "Some of them"]),
       ("mental_health_interview", ["No", "Maybe", "Yes"]),
       ("phys_health_interview", ["No", "Maybe", "Yes"]),
       ("mental_vs_physical", ["Yes", "No", "Don\x27t know"]),
       ("company_size_category", ["Small", "Medium", "Large", "Very Large"])] }

/-- The processed-corpus row corresponding to a request: the survey columns
in file order, the label, and the derived features appended by
data_processing.create_derived_features with the same bucketing rules the
serving path uses. -/
def corpusRowOf (r : InputRecord) : Row :=
  [(ColName.raw "Timestamp", Val.str "2014-08-27"),
   (ColName.raw "Age", Val.num (r.Age : ℚ)),
   (ColName.raw "Gender", Val.str r.Gender),
   (ColName.raw "Country", Val.str r.Country),
   (ColName.raw "state", Val.str "CA"),
   (ColName.raw "self_employed", Val.str r.self_employed),
   (ColName.raw "family_history", Val.str r.family_history),
   (ColName.raw "treatment", Val.str "Yes"),
   (ColName.raw "work_interfere", Val.str r.work_interfere),
   (ColName.raw "no_employees", Val.str r.no_employees),
   (ColName.raw "remote_work", Val.str r.remote_work),
   (ColName.raw "tech_company", Val.str r.tech_company),
   (ColName.raw "benefits", Val.str r.benefits),
   (ColName.raw "care_options", Val.str r.care_options),
   (ColName.raw "wellness_program", Val.str r.wellness_program),
   (ColName.raw "seek_help", Val.str r.seek_help),
   (ColName.raw "anonymity", Val.str r.anonymity),
   (ColName.raw "leave", Val.str r.leave),
   (ColName.raw "mental_health_consequence", Val.str r.mental_health_consequence),
   (ColName.raw "phys_health_consequence", Val.str r.phys_health_consequence),
   (ColName.raw "coworkers", Val.str r.coworkers),
   (ColName.raw "supervisor", Val.str r.supervisor),
   (ColName.raw "mental_health_interview", Val.str r.mental_health_interview),
   (ColName.raw "phys_health_interview", Val.str r.phys_health_interview),
   (ColName.raw "mental_vs_physical", Val.str r.mental_vs_physical),
   (ColName.raw "obs_consequence", Val.str r.obs_consequence),
   (ColName.raw "comments", Val.str "none"),
   (ColName.raw "age_group", ageGroupVal r.Age),
   (ColName.raw "company_size_category", mapSize (Val.str r.no_employees))]

/-- The artifacts the small fitting run exFit emits for the corpus of
exRecord: feature names exactly as prepare_features ordered them, the four
saved encoders, identity-like scaler parameters and a flat importance. -/
def exmFit : Artifacts :=
  { featureNames := fitFeatureNames exFit (corpusRowOf exRecord),
    scalerMean := List.replicate 40 0,
    scalerStd := List.replicate 40 1,
    labelEncoders := theEncoders,
    featureImportance := [] }

/-- A complete on-disk bundle whose scaler parameter count (2) disagrees
with its feature-name count (1). -/
def exBadBundle : Bundle :=
  { model := some exScorer,
    scaler := some ([0, 0], [1, 1]),
    featureNames := some [ColName.raw "Age"],
    labelEncoders := some theEncoders,
    explainerData := some [(ColName.raw "Age", 1)] }

/-- A six-feature artifact set used for concrete explainer evaluations. -/
def exmSix : Artifacts :=
  { featureNames :=
      [ColName.raw "Age", ColName.raw "family_history", ColName.raw "remote_work",
       ColName.raw "tech_company", ColName.raw "seek_help", ColName.raw "anonymity"],
    scalerMean := List.replicate 6 0,
    scalerStd := List.replicate 6 1,
    labelEncoders := theEncoders,
    featureImportance :=
      [(ColName.raw "Age", 1), (ColName.raw "family_history", 2),
       (ColName.raw "remote_work", 3), (ColName.raw "tech_company", 4),
       (ColName.raw "seek_help", 5), (ColName.raw "anonymity", 6)] }

/-- The response predictService returns for exmSix, exScorer and exRecord. -/
def exRes : PredictionResult :=
  { prediction := "Yes", probNo := 1 / 5, probYes := 4 / 5, confidence := "High",
    topFive :=
      [{ feature := ColName.raw "Age", impact := 30, direction := "positive" },
       { feature := ColName.raw "anonymity", impact := 6, direction := "positive" },
       { feature := ColName.raw "seek_help", impact := 5, direction := "positive" },
       { feature := ColName.raw "tech_company", impact := 4, direction := "positive" },
       { feature := ColName.raw "family_history", impact := 2, direction := "positive" }] }

/-- The response predictService returns for exmA, exScorer and exRecord40. -/
def exResA : PredictionResult :=
  { prediction := "Yes", probNo := 1 / 5, probYes := 4 / 5, confidence := "High",
    topFive := [{ feature := ColName.raw "Age", impact := 5, direction := "positive" }] }

/-! Association-list lemmas. -/

theorem raw_eq_dummy_iff (s f c : String) : (ColName.raw s = ColName.dummy f c) = False :=
  eq_false fun h => ColName.noConfusion h

theorem dummy_eq_raw_iff (f c s : String) : (ColName.dummy f c = ColName.raw s) = False :=
  eq_false fun h => ColName.noConfusion h

section AssocLemmas

variable {α β : Type} [DecidableEq α]

theorem aget_append_some {l1 : List (α × β)} (l2 : List (α × β)) {c : α} {v : β}
    (h : aget l1 c = some v) : aget (l1 ++ l2) c = some v := by
  induction l1 with
  | nil => simp [aget] at h
  | cons p es ih =>
    by_cases hp : p.1 = c
    · simp [aget, hp] at h ⊢; exact h
    · simp [aget, hp] at h ⊢; exact ih h

theorem aget_append_none {l1 : List (α × β)} (l2 : List (α × β)) {c : α}
    (h : aget l1 c = none) : aget (l1 ++ l2) c = aget l2 c := by
  induction l1 with
  | nil => rfl
  | cons p es ih =>
    by_cases hp : p.1 = c
    · simp [aget, hp] at h
    · simp [aget, hp] at h ⊢; exact ih h

theorem aget_aset_self (l : List (α × β)) (c : α) (v : β) : aget (aset l c v) c = some v := by
  induction l with
  | nil => simp [aset, aget]
  | cons p es ih =>
    by_cases hp : p.1 = c
    · simp [aset, hp, aget]
    · simp [aset, hp, aget, ih]

theorem aget_aset_ne (l : List (α × β)) {c d : α} (v : β) (h : d ≠ c) :
    aget (aset l c v) d = aget l d := by
  induction l with
  | nil => simp [aset, aget, Ne.symm h]
  | cons p es ih =>
    by_cases hp : p.1 = c
    · have hpd : ¬(p.1 = d) := by rw [hp]; exact Ne.symm h
      simp [aset, hp, aget, Ne.symm h, hpd]
    · by_cases hpd : p.1 = d
      · simp [aset, hp, aget, hpd, h]
      · simp [aset, hp, aget, hpd, ih]

theorem aget_adrop_ne (l : List (α × β)) {c d : α} (h : d ≠ c) :
    aget (adrop l c) d = aget l d := by
  induction l with
  | nil => rfl
  | cons p es ih =>
    by_cases hp : p.1 = c
    · have hpd : ¬(p.1 = d) := by rw [hp]; exact Ne.symm h
      simp [adrop, hp, aget, hpd, ih, Ne.symm h]
    · by_cases hpd : p.1 = d
      · simp [adrop, hp, aget, hpd, h]
      · simp [adrop, hp, aget, hpd, ih]

theorem aget_filterKeys {p : α → Bool} {c : α} (hp : p c = true) (l : List (α × β)) :
    aget (filterKeys p l) c = aget l c := by
  induction l with
  | nil => rfl
  | cons e es ih =>
    by_cases he : p e.1 = true
    · by_cases hc : e.1 = c
      · simp [filterKeys, he, aget, hc, hp]
      · simp [filterKeys, he, aget, hc, ih]
    · have hc : ¬(e.1 = c) := fun hh => he (hh ▸ hp)
      simp [filterKeys, he, aget, hc, ih]

theorem aget_mem_keys {l : List (α × β)} {c : α} {v : β} (h : aget l c = some v) :
    c ∈ l.map Prod.fst := by
  induction l with
  | nil => simp [aget] at h
  | cons p es ih =>
    by_cases hp : p.1 = c
    · simp [List.map_cons, List.mem_cons, hp.symm]
    · simp [aget, hp] at h
      simp [List.map_cons, List.mem_cons, ih h]

end AssocLemmas

/-! Lemmas on the single encoding steps. -/

theorem aget_applyOrdinal_ne (encs : List (String × List String)) (df : Row)
    (feat : String) (order : List String) {c : ColName} (h : c ≠ ColName.raw feat) :
    aget (applyOrdinal encs df feat order) c = aget df c := by
  unfold applyOrdinal
  split
  · rfl
  · split
    · rfl
    · split <;> exact aget_aset_ne _ _ h

theorem aget_applyBinary_ne (df : Row) (feat : String) {c : ColName}
    (h : c ≠ ColName.raw feat) : aget (applyBinary df feat) c = aget df c := by
  unfold applyBinary
  split
  · rfl
  · exact aget_aset_ne _ _ h

theorem singleDummies_dropTrue (feat : String) (v : Val) : singleDummies feat v true = [] := by
  cases v <;> rfl

theorem aget_singleDummies_none {feat : String} {v : Val} {b : Bool} {c : ColName}
    (h2 : ∀ s, c ≠ ColName.dummy feat s) : aget (singleDummies feat v b) c = none := by
  cases v with
  | str s =>
    cases b with
    | true => rfl
    | false =>
      show aget [(ColName.dummy feat s, Val.num 1)] c = none
      simp only [aget]
      rw [if_neg fun hh => h2 s hh.symm]
  | num q => rfl
  | na => rfl

theorem aget_dummiesOver_none {cats : List String} {feat : String} {v : Val} {c : ColName}
    (h2 : ∀ s, c ≠ ColName.dummy feat s) : aget (dummiesOver cats feat v) c = none := by
  induction cats with
  | nil => rfl
  | cons d ds ih =>
    simp only [dummiesOver, List.map_cons, aget]
    rw [if_neg fun hh => h2 d hh.symm]
    simpa [dummiesOver] using ih

theorem aget_applyDummies_ne (b : Bool) (df : Row) (feat : String) {c : ColName}
    (h1 : c ≠ ColName.raw feat) (h2 : ∀ s, c ≠ ColName.dummy feat s) :
    aget (applyDummies b df feat) c = aget df c := by
  unfold applyDummies
  split
  · rfl
  · rw [aget_adrop_ne _ h1]
    cases hdf : aget df c with
    | some w => rw [aget_append_some _ hdf]
    | none => rw [aget_append_none _ hdf, aget_singleDummies_none h2]

theorem aget_applyDummiesTrue_ne (df : Row) (feat : String) {c : ColName}
    (h1 : c ≠ ColName.raw feat) : aget (applyDummies true df feat) c = aget df c := by
  unfold applyDummies
  split
  · rfl
  · rw [singleDummies_dropTrue, List.append_nil, aget_adrop_ne _ h1]

theorem aget_applyOrdinalFit_ne (df : Row) (feat : String) (order : List String) {c : ColName}
    (h : c ≠ ColName.raw feat) : aget (applyOrdinalFit df feat order) c = aget df c := by
  unfold applyOrdinalFit
  split
  · rfl
  · split <;> exact aget_aset_ne _ _ h

theorem aget_applyThreeFit_ne (fi : FitInfo) (df : Row) (feat : String) {c : ColName}
    (h1 : c ≠ ColName.raw feat) (h2 : ∀ s, c ≠ ColName.dummy feat s) :
    aget (applyThreeFit fi df feat) c = aget df c := by
  unfold applyThreeFit
  split
  · rfl
  · rw [aget_adrop_ne _ h1]
    cases hdf : aget df c with
    | some w => rw [aget_append_some _ hdf]
    | none => rw [aget_append_none _ hdf, aget_dummiesOver_none h2]

theorem aget_applyNomFit_ne (fi : FitInfo) (df : Row) (feat : String) {c : ColName}
    (h1 : c ≠ ColName.raw feat) (h2 : ∀ s, c ≠ ColName.dummy feat s) :
    aget (applyNomFit fi df feat) c = aget df c := by
  unfold applyNomFit
  split
  · rfl
  · rw [aget_adrop_ne _ h1]
    cases hdf : aget df c with
    | some w => rw [aget_append_some _ hdf]
    | none => rw [aget_append_none _ hdf, aget_dummiesOver_none h2]

/-! Lemmas on the encoding loops. -/

theorem aget_foldOrdinal_ne (encs : List (String × List String))
    (l : List (String × List String)) (df : Row) {c : ColName}
    (h : ∀ p ∈ l, c ≠ ColName.raw p.1) :
    aget (l.foldl (fun d p => applyOrdinal encs d p.1 p.2) df) c = aget df c := by
  induction l generalizing df with
  | nil => rfl
  | cons p ps ih =>
    rw [List.foldl_cons, ih _ fun q hq => h q (List.mem_cons_of_mem _ hq)]
    exact aget_applyOrdinal_ne _ _ _ _ (h p (List.mem_cons_self _ _))

theorem aget_foldBinary_ne (l : List String) (df : Row) {c : ColName}
    (h : ∀ f ∈ l, c ≠ ColName.raw f) :
    aget (l.foldl applyBinary df) c = aget df c := by
  induction l generalizing df with
  | nil => rfl
  | cons f fs ih =>
    rw [List.foldl_cons, ih _ fun g hg => h g (List.mem_cons_of_mem _ hg)]
    exact aget_applyBinary_ne _ _ (h f (List.mem_cons_self _ _))

theorem aget_foldDummies_ne (b : Bool) (l : List String) (df : Row) {c : ColName}
    (h1 : ∀ f ∈ l, c ≠ ColName.raw f) (h2 : ∀ f ∈ l, ∀ s, c ≠ ColName.dummy f s) :
    aget (l.foldl (applyDummies b) df) c = aget df c := by
  induction l generalizing df with
  | nil => rfl
  | cons f fs ih =>
    rw [List.foldl_cons,
      ih _ (fun g hg => h1 g (List.mem_cons_of_mem _ hg))
        (fun g hg => h2 g (List.mem_cons_of_mem _ hg))]
    exact aget_applyDummies_ne _ _ _ (h1 f (List.mem_cons_self _ _))
      (h2 f (List.mem_cons_self _ _))

theorem aget_foldDummiesTrue_ne (l : List String) (df : Row) {c : ColName}
    (h1 : ∀ f ∈ l, c ≠ ColName.raw f) :
    aget (l.foldl (applyDummies true) df) c = aget df c := by
  induction l generalizing df with
  | nil => rfl
  | cons f fs ih =>
    rw [List.foldl_cons, ih _ fun g hg => h1 g (List.mem_cons_of_mem _ hg)]
    exact aget_applyDummiesTrue_ne _ _ (h1 f (List.mem_cons_self _ _))

theorem aget_foldOrdinalFit_ne (l : List (String × List String)) (df : Row) {c : ColName}
    (h : ∀ p ∈ l, c ≠ ColName.raw p.1) :
    aget (l.foldl (fun d p => applyOrdinalFit d p.1 p.2) df) c = aget df c := by
  induction l generalizing df with
  | nil => rfl
  | cons p ps ih =>
    rw [List.foldl_cons, ih _ fun q hq => h q (List.mem_cons_of_mem _ hq)]
    exact aget_applyOrdinalFit_ne _ _ _ (h p (List.mem_cons_self _ _))

theorem aget_foldThreeFit_ne (fi : FitInfo) (l : List String) (df : Row) {c : ColName}
    (h1 : ∀ f ∈ l, c ≠ ColName.raw f) (h2 : ∀ f ∈ l, ∀ s, c ≠ ColName.dummy f s) :
    aget (l.foldl (applyThreeFit fi) df) c = aget df c := by
  induction l generalizing df with
  | nil => rfl
  | cons f fs ih =>
    rw [List.foldl_cons,
      ih _ (fun g hg => h1 g (List.mem_cons_of_mem _ hg))
        (fun g hg => h2 g (List.mem_cons_of_mem _ hg))]
    exact aget_applyThreeFit_ne _ _ _ (h1 f (List.mem_cons_self _ _))
      (h2 f (List.mem_cons_self _ _))

theorem aget_foldNomFit_ne (fi : FitInfo) (l : List String) (df : Row) {c : ColName}
    (h1 : ∀ f ∈ l, c ≠ ColName.raw f) (h2 : ∀ f ∈ l, ∀ s, c ≠ ColName.dummy f s) :
    aget (l.foldl (applyNomFit fi) df) c = aget df c := by
  induction l generalizing df with
  | nil => rfl
  | cons f fs ih =>
    rw [List.foldl_cons,
      ih _ (fun g hg => h1 g (List.mem_cons_of_mem _ hg))
        (fun g hg => h2 g (List.mem_cons_of_mem _ hg))]
    exact aget_applyNomFit_ne _ _ _ (h1 f (List.mem_cons_self _ _))
      (h2 f (List.mem_cons_self _ _))

/-! Lemmas on the missing-feature fill. -/

theorem aget_fillMissing_some (names : List ColName) {df : Row} {c : ColName} {v : Val}
    (h : aget df c = some v) : aget (fillMissing df names) c = some v := by
  induction names generalizing df with
  | nil => simpa [fillMissing] using h
  | cons f fs ih =>
    cases hf : aget df f with
    | some w => simp only [fillMissing, hf]; exact ih h
    | none => simp only [fillMissing, hf]; exact ih (aget_append_some _ h)

theorem aget_fillMissing_none_getD (names : List ColName) {df : Row} {c : ColName}
    (h : aget df c = none) :
    (aget (fillMissing df names) c).getD (Val.num 0) = Val.num 0 := by
  induction names generalizing df with
  | nil => simp [fillMissing, h]
  | cons f fs ih =>
    cases hf : aget df f with
    | some w => simp only [fillMissing, hf]; exact ih h
    | none =>
      simp only [fillMissing, hf]
      by_cases hc : f = c
      · subst hc
        have hfull : aget (df ++ [(f, Val.num 0)]) f = some (Val.num 0) := by
          rw [aget_append_none _ h]; simp [aget]
        rw [aget_fillMissing_some fs hfull]
        rfl
      · have hnone : aget (df ++ [(f, Val.num 0)]) c = none := by
          rw [aget_append_none _ h]; simp [aget, hc]
        exact ih hnone

/-! Helper lemmas for the claims. -/

theorem encodedQ_length (m : Artifacts) (r : InputRecord) :
    (encodedQ m r).length = m.featureNames.length := by
  simp [encodedQ, encodedVec]

theorem buildContribs_spec (names : List ColName) (xs : List ℚ) :
    ∀ (imp : List (ColName × ℚ)) (cs : List Contribution),
      buildContribs names xs imp = some cs →
      cs.length = imp.length ∧
      ∀ p ∈ cs.zip imp, p.1.feature = p.2.1 ∧
        ∃ i, idxOf names p.2.1 = some i ∧ p.1.impact = xs.getD i 0 * p.2.2 := by
  intro imp
  induction imp with
  | nil =>
    intro cs h
    simp only [buildContribs, Option.some.injEq] at h
    subst h
    simp
  | cons fi rest ih =>
    intro cs h
    simp only [buildContribs] at h
    cases hidx : idxOf names fi.1 with
    | none => rw [hidx] at h; exact absurd h (by simp)
    | some i =>
      rw [hidx] at h
      cases hrest : buildContribs names xs rest with
      | none => rw [hrest] at h; exact absurd h (by simp)
      | some cs0 =>
        rw [hrest] at h
        simp only [Option.some.injEq] at h
        subst h
        refine ⟨by simp [(ih cs0 hrest).1], ?_⟩
        intro p hp
        rw [List.zip_cons_cons, List.mem_cons] at hp
        cases hp with
        | inl he => subst he; exact ⟨rfl, i, hidx, rfl⟩
        | inr he => exact (ih cs0 hrest).2 p he

theorem confOf_spec (p : ℚ) :
    (confOf p = "High" ↔ 3 / 4 < p) ∧
    (confOf p = "Medium" ↔ 3 / 5 < p ∧ p ≤ 3 / 4) ∧
    (confOf p = "Low" ↔ p ≤ 3 / 5) := by
  unfold confOf
  by_cases h1 : 3 / 4 < p
  · rw [if_pos h1]
    refine ⟨⟨fun _ => h1, fun _ => rfl⟩,
      ⟨fun hh => absurd hh (by decide), fun hh => absurd hh.2 (not_le.mpr h1)⟩,
      ⟨fun hh => absurd hh (by decide), fun hh => ?_⟩⟩
    have : (3 : ℚ) / 5 < p := lt_trans (by norm_num) h1
    exact absurd hh (not_le.mpr this)
  · rw [if_neg h1]
    by_cases h2 : 3 / 5 < p
    · rw [if_pos h2]
      exact ⟨⟨fun hh => absurd hh (by decide), fun hh => absurd hh h1⟩,
        ⟨fun _ => ⟨h2, not_lt.mp h1⟩, fun _ => rfl⟩,
        ⟨fun hh => absurd hh (by decide), fun hh => absurd hh (not_le.mpr h2)⟩⟩
    · rw [if_neg h2]
      exact ⟨⟨fun hh => absurd hh (by decide), fun hh => absurd hh h1⟩,
        ⟨fun hh => absurd hh (by decide), fun hh => absurd hh.1 h2⟩,
        ⟨fun _ => not_lt.mp h2, fun _ => rfl⟩⟩

/-- Any dummy column of a feature outside the three-way list is never
present in the frame the serve-time encoding loops produce: the nominal
loop, the only place drop-first dummies could arise, always appends an
EMPTY dummy block (single-row get_dummies plus drop-first). -/
theorem nominal_block_zero (m : Artifacts) (r : InputRecord) (f cc : String)
    (hb : f ≠ "benefits") (hc : f ≠ "care_options") (hw : f ≠ "wellness_program") :
    valueOfColumn m r (ColName.dummy f cc) = Val.num 0 := by
  have h2 : ∀ g ∈ threeWayFeatures, ∀ s, ColName.dummy f cc ≠ ColName.dummy g s := by
    intro g hg s hh
    rw [ColName.dummy.injEq] at hh
    obtain ⟨rfl, -⟩ := hh
    simp only [threeWayFeatures, List.mem_cons, List.not_mem_nil, or_false] at hg
    rcases hg with rfl | rfl | rfl
    · exact hb rfl
    · exact hc rfl
    · exact hw rfl
  have hcore : aget (preprocessCore m r) (ColName.dummy f cc) = none := by
    unfold preprocessCore nominalPass threeWayPass binaryPass ordinalPass
    rw [aget_foldDummiesTrue_ne _ _ (fun g _ hh => ColName.noConfusion hh)]
    rw [aget_foldDummies_ne false _ _ (fun g _ hh => ColName.noConfusion hh) h2]
    rw [aget_foldBinary_ne _ _ (fun g _ hh => ColName.noConfusion hh)]
    rw [aget_foldOrdinal_ne _ _ _ (fun p _ hh => ColName.noConfusion hh)]
    unfold derivedDF
    rw [aget_aset_ne _ _ (fun hh => ColName.noConfusion hh),
      aget_aset_ne _ _ (fun hh => ColName.noConfusion hh)]
    simp [initialDF, aget, raw_eq_dummy_iff]
  unfold valueOfColumn fullDF
  exact aget_fillMissing_none_getD _ hcore

/-- An ordinal column with a present saved encoder always ends the ordinal
step holding a number. -/
theorem aget_applyOrdinal_self_num (encs : List (String × List String)) (df : Row)
    (feat : String) (order : List String) (v : Val) (cls : List String)
    (hdf : aget df (ColName.raw feat) = some v) (he : aget encs feat = some cls) :
    ∃ q : ℚ, aget (applyOrdinal encs df feat order) (ColName.raw feat) = some (Val.num q) := by
  have hmain : applyOrdinal encs df feat order =
      if valIn v order then aset df (ColName.raw feat) (Val.num (colIdxQ cls v))
      else aset df (ColName.raw feat) (Val.num ((order.length / 2 : ℕ) : ℚ)) := by
    unfold applyOrdinal
    rw [hdf, he]
  by_cases hin : valIn v order
  · exact ⟨colIdxQ cls v, by rw [hmain, if_pos hin]; exact aget_aset_self _ _ _⟩
  · exact ⟨((order.length / 2 : ℕ) : ℚ), by rw [hmain, if_neg hin]; exact aget_aset_self _ _ _⟩

/-- The ordinal step on a column whose value is outside the declared order
stores the middle index len(order) // 2. -/
theorem aget_applyOrdinal_unknown (encs : List (String × List String)) (df : Row)
    (feat : String) (order : List String) (v : Val) (cls : List String)
    (hdf : aget df (ColName.raw feat) = some v) (he : aget encs feat = some cls)
    (hv : valIn v order = false) :
    aget (applyOrdinal encs df feat order) (ColName.raw feat) =
      some (Val.num ((order.length / 2 : ℕ) : ℚ)) := by
  have hmain : applyOrdinal encs df feat order =
      if valIn v order then aset df (ColName.raw feat) (Val.num (colIdxQ cls v))
      else aset df (ColName.raw feat) (Val.num ((order.length / 2 : ℕ) : ℚ)) := by
    unfold applyOrdinal
    rw [hdf, he]
  rw [hmain, if_neg (by simp [hv])]
  exact aget_aset_self _ _ _

/-- The serve-time frame carries the raw work-interference string right
before the ordinal pass. -/
theorem aget_derived_wi (r : InputRecord) :
    aget (derivedDF r) (ColName.raw "work_interfere") = some (Val.str r.work_interfere) := by
  unfold derivedDF
  rw [aget_aset_ne _ _ (by decide), aget_aset_ne _ _ (by decide)]
  simp [initialDF, aget]

/-- Pipeline trace for an unknown work-interference level: the encoded
frame holds the middle index 2 in that column. -/
theorem aget_core_wi_unknown (m : Artifacts) (r : InputRecord) (cls : List String)
    (hE : aget m.labelEncoders "work_interfere" = some cls)
    (hv : r.work_interfere ∉ (["Never", "Rarely", "Sometimes", "Often"] : List String)) :
    aget (preprocessCore m r) (ColName.raw "work_interfere") = some (Val.num 2) := by
  have hstep : aget (applyOrdinal m.labelEncoders (derivedDF r) "work_interfere"
      ["Never", "Rarely", "Sometimes", "Often"]) (ColName.raw "work_interfere") =
      some (Val.num 2) := by
    have h4 : (((["Never", "Rarely", "Sometimes", "Often"] : List String).length / 2 : ℕ) : ℚ) = 2 := by
      norm_num
    rw [← h4]
    exact aget_applyOrdinal_unknown _ _ _ _ _ _ (aget_derived_wi r) hE (by simp [valIn, hv])
  unfold preprocessCore nominalPass threeWayPass binaryPass ordinalPass ordinalFeatures
  rw [List.foldl_cons, List.foldl_cons, List.foldl_cons, List.foldl_cons, List.foldl_nil]
  rw [aget_foldDummiesTrue_ne _ _ (by decide)]
  rw [aget_foldDummies_ne false _ _ (by decide) (fun g _ s hh => ColName.noConfusion hh)]
  rw [aget_foldBinary_ne _ _ (by decide)]
  rw [aget_applyOrdinal_ne _ _ _ _ (by decide), aget_applyOrdinal_ne _ _ _ _ (by decide),
    aget_applyOrdinal_ne _ _ _ _ (by decide)]
  exact hstep

/-- Pipeline trace for the Age column: untouched by every encoding loop. -/
theorem aget_core_age (m : Artifacts) (r : InputRecord) :
    aget (preprocessCore m r) (ColName.raw "Age") = some (Val.num (r.Age : ℚ)) := by
  unfold preprocessCore nominalPass threeWayPass binaryPass ordinalPass
  rw [aget_foldDummiesTrue_ne _ _ (by decide)]
  rw [aget_foldDummies_ne false _ _ (by decide) (fun g _ s hh => ColName.noConfusion hh)]
  rw [aget_foldBinary_ne _ _ (by decide)]
  rw [aget_foldOrdinal_ne _ _ _ (by decide)]
  unfold derivedDF
  rw [aget_aset_ne _ _ (by decide), aget_aset_ne _ _ (by decide)]
  simp [initialDF, aget]

/-- Pipeline trace for the derived age-group column: present and numeric
after the encoding loops whenever its saved encoder exists. -/
theorem aget_core_age_group (m : Artifacts) (r : InputRecord) (cls : List String)
    (hE : aget m.labelEncoders "age_group" = some cls) :
    ∃ q : ℚ, aget (preprocessCore m r) (ColName.raw "age_group") = some (Val.num q) := by
  have h0 : aget (derivedDF r) (ColName.raw "age_group") = some (ageGroupVal r.Age) := by
    unfold derivedDF
    rw [aget_aset_ne _ _ (by decide)]
    exact aget_aset_self _ _ _
  have h3 : aget (applyOrdinal m.labelEncoders (applyOrdinal m.labelEncoders
      (applyOrdinal m.labelEncoders (derivedDF r) "work_interfere"
        ["Never", "Rarely", "Sometimes", "Often"]) "leave"
        ["Very easy", "Somewhat easy", "Don\x27t know", "Somewhat difficult", "Very difficult"])
      "no_employees" ["1-5", "6-25", "26-100", "100-500", "500-1000", "More than 1000"])
      (ColName.raw "age_group") = some (ageGroupVal r.Age) := by
    rw [aget_applyOrdinal_ne _ _ _ _ (by decide), aget_applyOrdinal_ne _ _ _ _ (by decide),
      aget_applyOrdinal_ne _ _ _ _ (by decide)]
    exact h0
  obtain ⟨q, hq⟩ := aget_applyOrdinal_self_num m.labelEncoders _ "age_group"
    ["18-25", "26-35", "36-45", "46+"] (ageGroupVal r.Age) cls h3 hE
  refine ⟨q, ?_⟩
  unfold preprocessCore nominalPass threeWayPass binaryPass ordinalPass ordinalFeatures
  rw [List.foldl_cons, List.foldl_cons, List.foldl_cons, List.foldl_cons, List.foldl_nil]
  rw [aget_foldDummiesTrue_ne _ _ (by decide)]
  rw [aget_foldDummies_ne false _ _ (by decide) (fun g _ s hh => ColName.noConfusion hh)]
  rw [aget_foldBinary_ne _ _ (by decide)]
  exact hq

/-- Fit-side trace: prepare_features leaves the Age column in place with
its value unchanged. -/
theorem aget_prepareFeatures_age (fi : FitInfo) (row : Row) (v : Val)
    (hA : aget row (ColName.raw "Age") = some v) :
    aget (prepareFeaturesRow fi row) (ColName.raw "Age") = some v := by
  unfold prepareFeaturesRow
  rw [aget_foldNomFit_ne _ _ _ (by decide) (fun g _ s hh => ColName.noConfusion hh)]
  rw [aget_foldThreeFit_ne _ _ _ (by decide) (fun g _ s hh => ColName.noConfusion hh)]
  rw [aget_foldBinary_ne _ _ (by decide)]
  rw [aget_foldOrdinalFit_ne _ _ (by decide)]
  rw [aget_filterKeys (by decide)]
  exact hA

/-! The claims. -/

/-- C1 counterexample: with artifact scaler mean 30 and std 2 for the Age
feature (importance 1) and a served age of 40, the code reports an impact
of 5 — the SCALED value times the importance — while the pre-scaling
encoded value is 40, so the impact stated by the claim would be 40 * 1. -/
theorem serveContributions_exmA_eval :
    serveContributions exmA exRecord40 =
      some [{ feature := ColName.raw "Age", impact := 5, direction := "positive" }] := by
  have henc : encodedQ exmA exRecord40 = [40] := by decide
  have hpre : preprocessInput exmA exRecord40 = some [5] := by
    rw [preprocessInput, henc]
    rw [scaleVec, if_pos ⟨rfl, rfl⟩]
    norm_num [exmA, scaleList, scaleVal]
  rw [serveContributions, hpre]
  show buildContribs exmA.featureNames [5] exmA.featureImportance = _
  norm_num [exmA, buildContribs, idxOf]

theorem c1_counterexample :
    serveContributions exmA exRecord40 =
      some [{ feature := ColName.raw "Age", impact := 5, direction := "positive" }] ∧
    encodedVec exmA exRecord40 = [Val.num 40] ∧
    exmA.featureImportance = [(ColName.raw "Age", 1)] ∧
    (5 : ℚ) ≠ 40 * 1 := by
  refine ⟨serveContributions_exmA_eval, by decide, rfl, by norm_num⟩

/-- C1 (amended): every contribution built for a prediction has impact
equal to the POST-scaling standardized value of its feature (the entry of
the vector preprocess_input returns) times the global
importance weight. -/
theorem c1_impact_is_scaled_times_importance :
    ∀ (m : Artifacts) (r : InputRecord) (cs : List Contribution),
      serveContributions m r = some cs →
      ∃ xs, preprocessInput m r = some xs ∧
        cs.length = m.featureImportance.length ∧
        ∀ p ∈ cs.zip m.featureImportance, p.1.feature = p.2.1 ∧
          ∃ i, idxOf m.featureNames p.2.1 = some i ∧ p.1.impact = xs.getD i 0 * p.2.2 := by
  intro m r cs h
  unfold serveContributions at h
  cases hx : preprocessInput m r with
  | none => rw [hx] at h; exact absurd h (by simp)
  | some xs =>
    rw [hx] at h
    exact ⟨xs, rfl, buildContribs_spec _ _ _ _ h⟩

/-- C1 witness: the amended statement evaluated on the concrete instance
of the counterexample. -/
theorem c1_impact_is_scaled_times_importance_witness :
    ∃ xs, preprocessInput exmA exRecord40 = some xs ∧
      ([{ feature := ColName.raw "Age", impact := 5, direction := "positive" }] :
          List Contribution).length = exmA.featureImportance.length ∧
      ∀ p ∈ ([{ feature := ColName.raw "Age", impact := 5, direction := "positive" }] :
          List Contribution).zip exmA.featureImportance, p.1.feature = p.2.1 ∧
        ∃ i, idxOf exmA.featureNames p.2.1 = some i ∧ p.1.impact = xs.getD i 0 * p.2.2 :=
  c1_impact_is_scaled_times_importance exmA exRecord40
    [{ feature := ColName.raw "Age", impact := 5, direction := "positive" }]
    serveContributions_exmA_eval

/-- C2 (code evaluation): Gender Male is retained by the artifacts with
its own indicator column (the baseline Female was dropped), yet serving a
record with Gender Male leaves the Gender-Male indicator at 0, because
single-row get_dummies with drop-first emits no column at all. -/
theorem c2_retained_nominal_indicator_stays_zero :
    ColName.dummy "Gender" "Male" ∈ exmFit.featureNames ∧
    "Male" ∈ retainedCats exmFit "Gender" ∧
    ColName.dummy "Gender" "Female" ∉ exmFit.featureNames ∧
    exRecord.Gender = "Male" ∧
    valueOfColumn exmFit exRecord (ColName.dummy "Gender" "Male") = Val.num 0 := by
  refine ⟨by decide, by decide, by decide, rfl, by decide⟩

/-- C3 counterexample: a bundle whose scaler holds two parameters against
one feature name loads without any error. -/
theorem c3_counterexample :
    (exBadBundle.scaler.map fun s => s.1.length) = some 2 ∧
    (exBadBundle.featureNames.map List.length) = some 1 ∧
    loadModel exBadBundle =
      some ⟨exScorer, ([0, 0], [1, 1]), [ColName.raw "Age"], theEncoders,
        [(ColName.raw "Age", 1)]⟩ :=
  ⟨rfl, rfl, rfl⟩

/-- C3 (amended): loading performs no consistency check — any bundle with
all five blobs present loads successfully — and a scaler parameter count
different from the feature-name count surfaces only at prediction time,
when scaling the encoded vector fails, so every predict call against such
artifacts errors out. -/
theorem c3_no_load_validation_mismatch_fails_at_predict :
    (∀ (sc : Scorer) (s : List ℚ × List ℚ) (f : List ColName)
       (l : List (String × List String)) (e : List (ColName × ℚ)),
       loadModel ⟨some sc, some s, some f, some l, some e⟩ = some ⟨sc, s, f, l, e⟩) ∧
    (∀ (m : Artifacts) (sc : Scorer) (r : InputRecord),
       m.scalerMean.length ≠ m.featureNames.length → predictService m sc r = none) := by
  constructor
  · intro sc s f l e
    rfl
  · intro m sc r h
    have hcond : ¬(m.scalerMean.length = (encodedQ m r).length ∧
        m.scalerStd.length = (encodedQ m r).length) :=
      fun hcc => h (hcc.1.trans (encodedQ_length m r))
    unfold predictService preprocessInput scaleVec
    rw [if_neg hcond]

/-- C3 witness: the amended statement on the concrete mismatched bundle
and artifacts. -/
theorem c3_no_load_validation_witness :
    loadModel exBadBundle =
      some ⟨exScorer, ([0, 0], [1, 1]), [ColName.raw "Age"], theEncoders,
        [(ColName.raw "Age", 1)]⟩ ∧
    predictService exmBad exScorer exRecord = none :=
  ⟨c3_no_load_validation_mismatch_fails_at_predict.1 exScorer ([0, 0], [1, 1])
      [ColName.raw "Age"] theEncoders [(ColName.raw "Age", 1)],
   c3_no_load_validation_mismatch_fails_at_predict.2 exmBad exScorer exRecord (by decide)⟩

/-- C4 (code evaluation): for the same record and the same fitted
artifacts, the fit-time feature row carries 1 in the Gender-Male
indicator while the serve-time pre-scaling vector carries 0 there; the
two vectors agree in length but differ in value — train/serve parity is
broken. -/
theorem c4_train_serve_skew :
    aget (prepareFeaturesRow exFit (corpusRowOf exRecord)) (ColName.dummy "Gender" "Male") =
      some (Val.num 1) ∧
    valueOfColumn exmFit exRecord (ColName.dummy "Gender" "Male") = Val.num 0 ∧
    (encodedVec exmFit exRecord).length = (fitVector exFit (corpusRowOf exRecord)).length ∧
    encodedVec exmFit exRecord ≠ fitVector exFit (corpusRowOf exRecord) := by
  refine ⟨by decide, by decide, by decide, by decide⟩

/-- C5: a record whose nominal-field value lies outside the retained
category set encodes without error (encoding is a total function in this
model) and the whole indicator block of that field is zero. -/
theorem c5_unseen_nominal_all_zero :
    ∀ (m : Artifacts) (r : InputRecord) (f : String), f ∈ nominalFeatures →
      (∀ s, nominalValue r f = Val.str s → s ∉ retainedCats m f) →
      ∀ cc : String, valueOfColumn m r (ColName.dummy f cc) = Val.num 0 := by
  intro m r f hf _ cc
  refine nominal_block_zero m r f cc ?_ ?_ ?_ <;>
    · intro hh
      subst hh
      revert hf
      decide

/-- C5 witness: a fictitious country name leaves the Country indicator
columns at zero. -/
theorem c5_unseen_nominal_all_zero_witness :
    valueOfColumn exmFit exRecordCountry (ColName.dummy "Country" "United States") = Val.num 0 := by
  refine c5_unseen_nominal_all_zero exmFit exRecordCountry "Country" (by decide) ?_ "United States"
  intro s hs
  have hval : nominalValue exRecordCountry "Country" = Val.str "Wakanda" := by decide
  rw [hval] at hs
  injection hs with hs2
  subst hs2
  decide

/-- C6: the encoded vector always has exactly one entry per artifact
feature name, and every feature name the encoding of the record did not
produce is filled with 0, never omitted. -/
theorem c6_vector_shape :
    ∀ (m : Artifacts) (r : InputRecord),
      (encodedVec m r).length = m.featureNames.length ∧
      ∀ f ∈ m.featureNames, aget (preprocessCore m r) f = none →
        valueOfColumn m r f = Val.num 0 := by
  intro m r
  constructor
  · simp [encodedVec]
  · intro f _ hf
    unfold valueOfColumn fullDF
    exact aget_fillMissing_none_getD _ hf

/-- C6 witness: the fitted artifacts of the small run against the example
record, with the Gender-Male indicator as the unproduced column. -/
theorem c6_vector_shape_witness :
    (encodedVec exmFit exRecord).length = exmFit.featureNames.length ∧
    valueOfColumn exmFit exRecord (ColName.dummy "Gender" "Male") = Val.num 0 :=
  ⟨(c6_vector_shape exmFit exRecord).1,
   (c6_vector_shape exmFit exRecord).2 (ColName.dummy "Gender" "Male") (by decide) (by decide)⟩

/-- C7: an ordinal value outside its declared order encodes to the middle
index len(order) // 2 (general step property), and in particular a served
work-interference level outside the four declared ones — such as
Unknown — ends in the encoded vector as index 2. -/
theorem c7_unknown_ordinal_middle :
    (∀ (encs : List (String × List String)) (df : Row) (feat : String)
       (order : List String) (v : Val) (cls : List String),
       aget df (ColName.raw feat) = some v → aget encs feat = some cls →
       valIn v order = false →
       aget (applyOrdinal encs df feat order) (ColName.raw feat) =
         some (Val.num ((order.length / 2 : ℕ) : ℚ))) ∧
    (∀ (m : Artifacts) (r : InputRecord) (cls : List String),
       aget m.labelEncoders "work_interfere" = some cls →
       r.work_interfere ∉ (["Never", "Rarely", "Sometimes", "Often"] : List String) →
       valueOfColumn m r (ColName.raw "work_interfere") = Val.num 2) := by
  constructor
  · exact fun encs df feat order v cls hdf he hv =>
      aget_applyOrdinal_unknown encs df feat order v cls hdf he hv
  · intro m r cls hE hv
    unfold valueOfColumn fullDF
    rw [aget_fillMissing_some _ (aget_core_wi_unknown m r cls hE hv)]
    rfl

/-- C7 witness: work_interfere set to Unknown encodes to 2 on the fitted
artifacts. -/
theorem c7_unknown_ordinal_middle_witness :
    aget (applyOrdinal theEncoders [(ColName.raw "work_interfere", Val.str "Unknown")]
      "work_interfere" ["Never", "Rarely", "Sometimes", "Often"])
      (ColName.raw "work_interfere") = some (Val.num 2) ∧
    valueOfColumn exmFit exRecordWI (ColName.raw "work_interfere") = Val.num 2 := by
  constructor
  · have := c7_unknown_ordinal_middle.1 theEncoders
      [(ColName.raw "work_interfere", Val.str "Unknown")] "work_interfere"
      ["Never", "Rarely", "Sometimes", "Often"] (Val.str "Unknown")
      ["Never", "Rarely", "Sometimes", "Often"] (by decide) (by decide) (by decide)
    simpa using this
  · exact c7_unknown_ordinal_middle.2 exmFit exRecordWI
      ["Never", "Rarely", "Sometimes", "Often"] (by decide) (by decide)

/-- Concrete serving run used by the explainer witnesses. -/
theorem predictService_exmA_eval :
    predictService exmA exScorer exRecord40 = some exResA := by
  have henc : encodedQ exmA exRecord40 = [40] := by decide
  have hpre : preprocessInput exmA exRecord40 = some [5] := by
    rw [preprocessInput, henc]
    rw [scaleVec, if_pos ⟨rfl, rfl⟩]
    norm_num [exmA, scaleList, scaleVal]
  have hbc : buildContribs exmA.featureNames [5] exmA.featureImportance =
      some [{ feature := ColName.raw "Age", impact := 5, direction := "positive" }] := by
    norm_num [exmA, buildContribs, idxOf]
  have hconf : confOf (max ((1 : ℚ) / 5) (4 / 5)) = "High" := by
    unfold confOf
    rw [if_pos (by norm_num)]
  simp only [predictService, hpre, hbc, Option.some.injEq, exResA,
    PredictionResult.mk.injEq]
  exact ⟨rfl, rfl, rfl, hconf, rfl⟩

/-- C8: top_factors is the five-element descending-by-absolute-impact head
of the sorted contributions: it is sorted non-increasingly, together with
the discarded tail it is a permutation of all contributions, every kept
entry dominates every discarded one in absolute impact, and it has exactly
5 entries whenever at least 5 contributions exist. -/
theorem c8_top_factors_top5_by_abs_impact :
    ∀ (m : Artifacts) (sc : Scorer) (r : InputRecord) (res : PredictionResult),
      predictService m sc r = some res →
      ∃ cs, serveContributions m r = some cs ∧
        res.topFive = topFactors cs ∧
        List.Sorted relAbs res.topFive ∧
        (res.topFive ++ (sortContribs cs).drop 5).Perm cs ∧
        (∀ a ∈ res.topFive, ∀ b ∈ (sortContribs cs).drop 5, |b.impact| ≤ |a.impact|) ∧
        (5 ≤ cs.length → res.topFive.length = 5) := by
  intro m sc r res h
  cases hx : preprocessInput m r with
  | none => simp only [predictService, hx] at h; exact absurd h (by simp)
  | some xs =>
    cases hcs : buildContribs m.featureNames xs m.featureImportance with
    | none => simp only [predictService, hx, hcs] at h; exact absurd h (by simp)
    | some cs =>
      simp only [predictService, hx, hcs, Option.some.injEq] at h
      subst h
      have hsorted : List.Sorted relAbs (sortContribs cs) :=
        List.sorted_insertionSort relAbs cs
      have hsplit : List.Pairwise relAbs
          ((sortContribs cs).take 5 ++ (sortContribs cs).drop 5) := by
        rw [List.take_append_drop]
        exact hsorted
      refine ⟨cs, ?_, rfl, ?_, ?_, ?_, ?_⟩
      · unfold serveContributions
        rw [hx]
        exact hcs
      · exact List.Pairwise.sublist (List.take_sublist 5 _) hsorted
      · show ((sortContribs cs).take 5 ++ (sortContribs cs).drop 5).Perm cs
        rw [List.take_append_drop]
        exact List.perm_insertionSort relAbs cs
      · exact fun a ha b hb => (List.pairwise_append.mp hsplit).2.2 a ha b hb
      · intro h5
        show ((sortContribs cs).take 5).length = 5
        rw [List.length_take]
        have hlen : (sortContribs cs).length = cs.length :=
          (List.perm_insertionSort relAbs cs).length_eq
        omega

/-- C8 witness: the sorting properties on the concrete serving run. -/
theorem c8_top_factors_top5_by_abs_impact_witness :
    ∃ cs, serveContributions exmA exRecord40 = some cs ∧
      exResA.topFive = topFactors cs ∧
      List.Sorted relAbs exResA.topFive ∧
      (exResA.topFive ++ (sortContribs cs).drop 5).Perm cs ∧
      (∀ a ∈ exResA.topFive, ∀ b ∈ (sortContribs cs).drop 5, |b.impact| ≤ |a.impact|) ∧
      (5 ≤ cs.length → exResA.topFive.length = 5) :=
  c8_top_factors_top5_by_abs_impact exmA exScorer exRecord40 exResA predictService_exmA_eval

/-- C9: the confidence field of every served prediction is High exactly
when the larger class probability exceeds 0.75, Medium exactly when it
exceeds 0.6 without exceeding 0.75, and Low exactly otherwise. -/
theorem c9_confidence_buckets :
    ∀ (m : Artifacts) (sc : Scorer) (r : InputRecord) (res : PredictionResult),
      predictService m sc r = some res →
      ((res.confidence = "High" ↔ 3 / 4 < max res.probNo res.probYes) ∧
       (res.confidence = "Medium" ↔
         3 / 5 < max res.probNo res.probYes ∧ max res.probNo res.probYes ≤ 3 / 4) ∧
       (res.confidence = "Low" ↔ max res.probNo res.probYes ≤ 3 / 5)) := by
  intro m sc r res h
  cases hx : preprocessInput m r with
  | none => simp only [predictService, hx] at h; exact absurd h (by simp)
  | some xs =>
    cases hcs : buildContribs m.featureNames xs m.featureImportance with
    | none => simp only [predictService, hx, hcs] at h; exact absurd h (by simp)
    | some cs =>
      simp only [predictService, hx, hcs, Option.some.injEq] at h
      subst h
      exact confOf_spec (max (sc.proba xs).1 (sc.proba xs).2)

/-- C9 witness: the bucket characterization on the concrete serving run. -/
theorem c9_confidence_buckets_witness :
    (exResA.confidence = "High" ↔ 3 / 4 < max exResA.probNo exResA.probYes) ∧
    (exResA.confidence = "Medium" ↔
      3 / 5 < max exResA.probNo exResA.probYes ∧ max exResA.probNo exResA.probYes ≤ 3 / 4) ∧
    (exResA.confidence = "Low" ↔ max exResA.probNo exResA.probYes ≤ 3 / 5) :=
  c9_confidence_buckets exmA exScorer exRecord40 exResA predictService_exmA_eval

/-- C10: the raw Age value is itself a feature. At fit time the Age column
survives feature preparation unchanged, so Age is among the saved feature
names with the raw value; at serve time the pre-scaling vector carries the
Age integer of the record verbatim in the Age column; and the derived age-group
ordinal exists alongside it as its own numeric column. -/
theorem c10_age_raw_feature :
    (∀ (fi : FitInfo) (row : Row) (v : Val),
       aget row (ColName.raw "Age") = some v →
       ColName.raw "Age" ∈ fitFeatureNames fi row ∧
       aget (prepareFeaturesRow fi row) (ColName.raw "Age") = some v) ∧
    (∀ (m : Artifacts) (r : InputRecord),
       valueOfColumn m r (ColName.raw "Age") = Val.num (r.Age : ℚ)) ∧
    (∀ (m : Artifacts) (r : InputRecord) (cls : List String),
       aget m.labelEncoders "age_group" = some cls →
       ∃ q : ℚ, aget (preprocessCore m r) (ColName.raw "age_group") = some (Val.num q)) := by
  refine ⟨?_, ?_, ?_⟩
  · intro fi row v hA
    have hprep := aget_prepareFeatures_age fi row v hA
    exact ⟨aget_mem_keys hprep, hprep⟩
  · intro m r
    unfold valueOfColumn fullDF
    rw [aget_fillMissing_some _ (aget_core_age m r)]
    rfl
  · intro m r cls hE
    exact aget_core_age_group m r cls hE

/-- C10 witness: Age on the concrete fitting corpus row and artifacts. -/
theorem c10_age_raw_feature_witness :
    (ColName.raw "Age" ∈ fitFeatureNames exFit (corpusRowOf exRecord) ∧
     aget (prepareFeaturesRow exFit (corpusRowOf exRecord)) (ColName.raw "Age") =
       some (Val.num (exRecord.Age : ℚ))) ∧
    valueOfColumn exmFit exRecord (ColName.raw "Age") = Val.num (exRecord.Age : ℚ) ∧
    ∃ q : ℚ, aget (preprocessCore exmFit exRecord) (ColName.raw "age_group") =
      some (Val.num q) :=
  ⟨c10_age_raw_feature.1 exFit (corpusRowOf exRecord) (Val.num (exRecord.Age : ℚ)) (by decide),
   c10_age_raw_feature.2.1 exmFit exRecord,
   c10_age_raw_feature.2.2 exmFit exRecord ["18-25", "26-35", "36-45", "46+"] (by decide)⟩
